import Mathlib

/-
Verification of the real-time job-progress synchronization subsystem of
StarStitch (src/web/src): the WebSocket hooks `useRenderWebSocket` and
`useWebSocket`, the render-state reducer `useRender`, and the cancellation
paths.  Each definition is a shallow embedding of the corresponding
TypeScript function; the theorems settle the spec's claims about them.
-/

namespace StarStitch

/-- Job state enum from `src/web/src/api/client.ts` (`JobState`). -/
inductive JobState where
  | pending
  | running
  | complete
  | failed
  | cancelled
deriving DecidableEq

/-- Render progress record from `src/web/src/api/client.ts` (`RenderProgress`).
Percentages are modelled as integers; optional wire fields are `Option`. -/
structure RenderProgress where
  step : Nat
  total_steps : Nat
  phase : String
  message : String
  progress_percent : Int
  current_subject : Option String
  elapsed_seconds : Nat
  estimated_remaining_seconds : Option Nat
deriving DecidableEq

/-- `RenderProgressState` from `src/web/src/hooks/useRenderWebSocket.ts`:
the externally visible progress aggregate held by the hook.  TypeScript's
absent optional fields are `none` / the empty list. -/
structure RenderProgressState where
  state : JobState
  progress : Option RenderProgress
  outputPath : Option String
  variantPaths : List (String × String)
  errorMessage : Option String
deriving DecidableEq

/-- The message tags of `WebSocketMessageType` in `useRenderWebSocket.ts`,
plus `unknown` for any other string (the switch's `default` branch). -/
inductive WebSocketMessageType where
  | state
  | progress
  | complete
  | error
  | cancelled
  | heartbeat
  | pong
  | unknown
deriving DecidableEq

/-- The fields of `message.data` that `handleMessage` in
`useRenderWebSocket.ts` reads, each optional as on the wire. -/
structure WsMessageData where
  state : Option JobState
  progress : Option RenderProgress
  output_path : Option String
  variant_paths : Option (List (String × String))
  message : Option String
deriving DecidableEq

/-- A decoded `WebSocketMessage` from `useRenderWebSocket.ts`. -/
structure WebSocketMessage where
  type : WebSocketMessageType
  data : WsMessageData
deriving DecidableEq

/-- The state-folding core of `handleMessage` in `useRenderWebSocket.ts`
(lines 96-140): the `switch (message.type)` that computes the next
`renderState` from the current one and a decoded message.  Each
`setRenderState({...})` constructs a whole new object, so fields not listed
there become `none` / `[]`.  `(message.data.state as JobState) || 'running'`
is `Option.getD .running`; `(... as Record) || {}` is `Option.getD []`. -/
def handleMessage (rs : Option RenderProgressState) (m : WebSocketMessage) :
    Option RenderProgressState :=
  match m.type with
  | .state | .progress =>
      some { state := m.data.state.getD .running
             progress := m.data.progress
             outputPath := none
             variantPaths := []
             errorMessage := none }
  | .complete =>
      some { state := .complete
             progress := none
             outputPath := m.data.output_path
             variantPaths := m.data.variant_paths.getD []
             errorMessage := none }
  | .error =>
      some { state := .failed
             progress := none
             outputPath := none
             variantPaths := []
             errorMessage := m.data.message }
  | .cancelled =>
      some { state := .cancelled
             progress := none
             outputPath := none
             variantPaths := []
             errorMessage := none }
  | .heartbeat | .pong => rs
  | .unknown => rs

/-- The percentage currently held by the hook, when one is held. -/
def heldPercentage (rs : Option RenderProgressState) : Option Int :=
  match rs with
  | none => none
  | some r =>
      match r.progress with
      | none => none
      | some p => some p.progress_percent

/-- Terminal job states per the spec's glossary. -/
def isTerminal : JobState → Bool
  | .complete => true
  | .failed => true
  | .cancelled => true
  | _ => false

/-- A raw inbound frame before `JSON.parse`: either malformed JSON
(`JSON.parse` throws) or a parsed object whose `type` field may be absent. -/
structure RawMessage where
  type : Option WebSocketMessageType
  data : WsMessageData
deriving DecidableEq

inductive RawFrame where
  | malformed
  | parsed (m : RawMessage)
deriving DecidableEq

inductive DecodeError where
  | invalidJson
deriving DecidableEq

/-- The decode step of `handleMessage` in `useRenderWebSocket.ts`: the only
failure path is the `catch` around `JSON.parse` (malformed JSON).  A parsed
object with a missing or unrecognized `type` decodes successfully; the
switch routes it to the `default` branch, i.e. tag `unknown`. -/
def decodeFrame : RawFrame → Except DecodeError WebSocketMessage
  | .malformed => .error .invalidJson
  | .parsed m => .ok ⟨m.type.getD .unknown, m.data⟩

/-- Connection state of `useRenderWebSocket.ts` (`ConnectionState`). -/
inductive ConnectionState where
  | connecting
  | connected
  | disconnected
  | error
deriving DecidableEq

/-- The mutable state of the `useRenderWebSocket` hook: the two `useState`
values, the two timer refs (`Bool`: timer currently set), the socket ref
(`none` = no socket, `some b` with `b` = readyState is OPEN), and the
current URL ref. -/
structure RWHookState where
  connectionState : ConnectionState
  renderState : Option RenderProgressState
  heartbeatTimer : Bool
  reconnectTimer : Bool
  socket : Option Bool
  currentUrl : Option String
deriving DecidableEq

/-- `clearTimers` in `useRenderWebSocket.ts`. -/
def rwClearTimers (s : RWHookState) : RWHookState :=
  { s with heartbeatTimer := false, reconnectTimer := false }

/-- The whole `handleMessage` handler of `useRenderWebSocket.ts` acting on
the hook state: a decode failure is caught and logged, touching nothing;
a decoded message is folded into `renderState` only. -/
def rwOnMessage (s : RWHookState) (f : RawFrame) : RWHookState :=
  match decodeFrame f with
  | .error _ => s
  | .ok m => { s with renderState := handleMessage s.renderState m }

/-- `createConnection` in `useRenderWebSocket.ts` (lines 149-161): closes
any existing socket, clears both timers, sets `connecting`, resets
`renderState` to null, records the URL and installs a fresh (not yet open)
socket.  The returned `Bool` records whether an existing socket was
closed. -/
def rwCreateConnection (s : RWHookState) (url : String) : RWHookState × Bool :=
  ({ rwClearTimers s with
      connectionState := .connecting
      renderState := none
      currentUrl := some url
      socket := some false },
   s.socket.isSome)

/-- `ws.onopen` in `useRenderWebSocket.ts`: the socket is now OPEN, the
state becomes `connected`, and the heartbeat interval starts. -/
def rwOnOpen (s : RWHookState) : RWHookState :=
  { s with connectionState := .connected
           heartbeatTimer := true
           socket := some true }

/-- `ws.onerror` in `useRenderWebSocket.ts`. -/
def rwOnError (s : RWHookState) : RWHookState :=
  { s with connectionState := .error }

/-- `ws.onclose` in `useRenderWebSocket.ts` (lines 181-191): clears timers;
clean closure yields `disconnected` and drops the URL, abnormal closure
yields `error`.  No reconnection is ever scheduled ("Don't auto-reconnect
to avoid connection storms"). -/
def rwOnClose (s : RWHookState) (wasClean : Bool) : RWHookState :=
  let s := rwClearTimers s
  let s := { s with socket := s.socket.map (fun _ => false) }
  if wasClean then
    { s with connectionState := .disconnected, currentUrl := none }
  else
    { s with connectionState := .error }

/-- The literal outbound heartbeat frame `JSON.stringify(\x7btype:'ping'\x7d)`. -/
def pingFrame : String := "\x7b\"type\":\"ping\"\x7d"

/-- The literal outbound cancel frame `JSON.stringify(\x7btype:'cancel'\x7d)`. -/
def cancelFrame : String := "\x7b\"type\":\"cancel\"\x7d"

/-- One firing of the heartbeat interval in `useRenderWebSocket.ts`:
sends the ping frame when the socket's readyState is OPEN. -/
def rwHeartbeatTick (s : RWHookState) : List String :=
  if s.socket = some true then [pingFrame] else []

/-- `cancel` in `useRenderWebSocket.ts` (lines 219-223): sends the cancel
frame when the socket is OPEN; the hook state is untouched and the call
cannot fail. -/
def rwCancel (s : RWHookState) : RWHookState × List String :=
  (s, if s.socket = some true then [cancelFrame] else [])

/-- `RenderState` from `useRender` (in `src/web/src/types.ts`). -/
inductive RenderState where
  | idle
  | starting
  | rendering
  | complete
  | error
  | cancelled
deriving DecidableEq

/-- The `status` union of `RenderProgress` in `src/web/src/types.ts`. -/
inductive ProgressStatus where
  | idle
  | preparing
  | rendering
  | complete
  | error
deriving DecidableEq

/-- The `RenderProgress` record of `src/web/src/types.ts`, as held by the
`useRender` hook's `progress` state. -/
structure UIProgress where
  status : ProgressStatus
  current_step : Nat
  total_steps : Nat
  current_subject : Option String
  progress_percent : Int
  message : String
  elapsed_time : Nat
deriving DecidableEq

/-- `ProgressEventType` from `src/web/src/types.ts`. -/
inductive ProgressEventType where
  | connected
  | disconnected
  | job_started
  | job_completed
  | job_failed
  | job_cancelled
  | phase_started
  | phase_completed
  | step_started
  | step_progress
  | step_completed
  | progress
  | log
  | error
deriving DecidableEq

/-- `ProgressEvent` from `src/web/src/types.ts`, restricted to the fields
the `useRender` handler reads.  `data_elapsed_seconds`, `data_error` and
`data_output_path` model `event.data?.elapsed_seconds`, `event.data?.error`
and `event.data?.output_path`; the handler never reads the last one. -/
structure ProgressEvent where
  type : ProgressEventType
  current_step : Option Nat
  total_steps : Option Nat
  progress_percent : Option Int
  subject : Option String
  message : String
  data_elapsed_seconds : Option Nat
  data_error : Option String
  data_output_path : Option String
deriving DecidableEq

/-- The state of the `useRender` hook that its WebSocket `onEvent` callback
mutates: `state`, `error` and `progress`. -/
structure UseRenderState where
  state : RenderState
  error : Option String
  progress : UIProgress
deriving DecidableEq

/-- The initial `useRender` state (the `useState` initializers). -/
def initialUseRenderState : UseRenderState :=
  ⟨.idle, none, ⟨.idle, 0, 0, none, 0, "", 0⟩⟩

/-- The first `setProgress` of `useRender`'s `onEvent` callback
(`src/web/src/types.ts` lines 277-284), run for every event before the
switch: `event.field ?? prev.field` merges, and `event.message ||
prev.message` keeps the previous message only when the event's is empty. -/
def mergeEventFields (p : UIProgress) (e : ProgressEvent) : UIProgress :=
  { p with
    current_step := e.current_step.getD p.current_step
    total_steps := e.total_steps.getD p.total_steps
    progress_percent := e.progress_percent.getD p.progress_percent
    current_subject := e.subject.orElse (fun _ => p.current_subject)
    message := if e.message = "" then p.message else e.message }

/-- `useRender`'s `onEvent` callback (`src/web/src/types.ts` lines
275-331): the unconditional field merge followed by the
`switch (event.type)`.  Tags without a case (connected, phase events,
log, ...) fall through with only the merge applied. -/
def onEvent (s : UseRenderState) (e : ProgressEvent) : UseRenderState :=
  let s1 : UseRenderState := { s with progress := mergeEventFields s.progress e }
  match e.type with
  | .job_started =>
      { s1 with state := .rendering
                progress := { s1.progress with status := .rendering } }
  | .job_completed =>
      { s1 with state := .complete
                progress := { s1.progress with
                  status := .complete
                  progress_percent := 100
                  elapsed_time :=
                    e.data_elapsed_seconds.getD s1.progress.elapsed_time } }
  | .job_failed =>
      { s1 with state := .error
                error := some (e.data_error.getD e.message)
                progress := { s1.progress with status := .error } }
  | .job_cancelled =>
      { s1 with state := .cancelled
                progress := { s1.progress with status := .idle } }
  | .progress | .step_progress =>
      { s1 with progress := { s1.progress with status := .rendering } }
  | _ => s1

/-- Terminal values of `useRender`'s `RenderState`. -/
def isTerminalRender : RenderState → Bool
  | .complete => true
  | .error => true
  | .cancelled => true
  | _ => false

/-- `cancelRender` in `useRender` (`src/web/src/types.ts` lines 382-401).
`httpOk` is whether the out-of-band `rendersApi.cancel` call succeeds; on
failure the `catch` only logs, so the returned promise always resolves —
the second component (true = resolved without rejection) is the result the
caller observes. -/
def cancelRender (httpOk : Bool) (s : UseRenderState) (jobId : Option String) :
    UseRenderState × Bool :=
  match jobId with
  | none => (s, true)
  | some _ =>
      if httpOk then
        ({ s with state := .cancelled
                  progress := { s.progress with
                    status := .idle
                    message := "Render cancelled" } }, true)
      else (s, true)

/-- `WebSocketStatus` of `useWebSocket` (in `src/web/src/hooks/useGallery.ts`). -/
inductive WebSocketStatus where
  | connecting
  | connected
  | disconnected
  | error
deriving DecidableEq

/-- The mutable state of the `useWebSocket` hook: `status`,
`reconnectAttemptsRef`, whether a reconnection timeout is pending, a ghost
count of reconnections scheduled so far, and whether the socket's
readyState is OPEN. -/
structure WsConnState where
  status : WebSocketStatus
  reconnectAttempts : Nat
  pendingReconnect : Bool
  scheduledReconnects : Nat
  socketOpen : Bool
deriving DecidableEq

/-- The `useState`/ref initializers of `useWebSocket`. -/
def initialWsConnState : WsConnState := ⟨.disconnected, 0, false, 0, false⟩

/-- The events driving `useWebSocket`'s handlers: a `connect()` call (also
the firing of a pending reconnection timeout), `ws.onopen`, `ws.onerror`,
and `ws.onclose` (the handler ignores the close event entirely, so
`wasClean` is carried but unread). -/
inductive WsEvent where
  | connectCall
  | opened
  | errored
  | closed (wasClean : Bool)
deriving DecidableEq

/-- One handler invocation of `useWebSocket` (`useGallery.ts`):
`connect` is a no-op while the socket is OPEN, else sets `connecting`;
`onopen` sets `connected` and resets the attempt counter to 0;
`onerror` sets `error`;
`onclose` (lines 340-354) sets `disconnected` and, when `autoReconnect`
holds and attempts remain, increments the counter and schedules a
reconnection — with no regard to `wasClean` or the job's progress state. -/
def wsStep (autoReconnect : Bool) (maxReconnectAttempts : Nat)
    (s : WsConnState) (e : WsEvent) : WsConnState :=
  match e with
  | .connectCall =>
      if s.socketOpen then s
      else { s with status := .connecting, pendingReconnect := false }
  | .opened =>
      { s with status := .connected, reconnectAttempts := 0, socketOpen := true }
  | .errored =>
      { s with status := .error }
  | .closed _ =>
      let s := { s with status := .disconnected, socketOpen := false }
      if autoReconnect ∧ s.reconnectAttempts < maxReconnectAttempts then
        { s with reconnectAttempts := s.reconnectAttempts + 1
                 pendingReconnect := true
                 scheduledReconnects := s.scheduledReconnects + 1 }
      else
        { s with pendingReconnect := false }

/-- `disconnect` in `useWebSocket`: clears any pending reconnection
timeout, saturates the attempt counter to `maxReconnectAttempts` ("Prevent
auto-reconnect"), closes the socket and sets `disconnected`. -/
def wsDisconnect (maxReconnectAttempts : Nat) (s : WsConnState) : WsConnState :=
  { s with pendingReconnect := false
           reconnectAttempts := maxReconnectAttempts
           socketOpen := false
           status := .disconnected }

/-- `send` in `useWebSocket`: the frame goes out only when the socket is
OPEN, otherwise only a warning is logged. -/
def wsSend (socketOpen : Bool) (message : String) : List String :=
  if socketOpen then [message] else []

/-- `cancelJob` in `useWebSocket` (`useGallery.ts` lines 386-388):
`send('cancel')` — the plain string, not a JSON object. -/
def wsCancelJob (socketOpen : Bool) : List String :=
  wsSend socketOpen "cancel"

/-- One failed connection attempt as `useWebSocket` observes it: the
`connect()` call, then `onerror`, then an abnormal `onclose`. -/
def failCycle : List WsEvent := [.connectCall, .errored, .closed false]

/-- Fold a list of events through `wsStep`. -/
def runEvents (autoReconnect : Bool) (maxReconnectAttempts : Nat)
    (s : WsConnState) (es : List WsEvent) : WsConnState :=
  es.foldl (wsStep autoReconnect maxReconnectAttempts) s

/-- `n` consecutive failed connection attempts. -/
def failSequence : Nat → List WsEvent
  | 0 => []
  | n + 1 => failSequence n ++ failCycle

/-- The composite system of `useRender` driving `useWebSocket`: the render
reducer state next to the connection state.  Connection events touch only
the connection state — `useWebSocket`'s close handler never consults the
render state. -/
structure GallerySystem where
  render : UseRenderState
  conn : WsConnState
deriving DecidableEq

/-- A connection event folded into the composite system. -/
def gallerySystemStep (autoReconnect : Bool) (maxReconnectAttempts : Nat)
    (g : GallerySystem) (e : WsEvent) : GallerySystem :=
  { g with conn := wsStep autoReconnect maxReconnectAttempts g.conn e }

/-! Concrete inputs used by the counterexamples and witnesses. -/

/-- A `data` payload with every optional field absent. -/
def noData : WsMessageData := ⟨none, none, none, none, none⟩

/-- A wire progress record carrying only counters and a percentage. -/
def progressData (step total : Nat) (percent : Int) : RenderProgress :=
  ⟨step, total, "", "", percent, none, 0, none⟩

/-- A `progress` message as `useRenderWebSocket` decodes it. -/
def progressMsg (step total : Nat) (percent : Int) : WebSocketMessage :=
  ⟨.progress, ⟨none, some (progressData step total percent), none, none, none⟩⟩

/-- A `complete` message carrying an output path. -/
def completeMsg (path : String) : WebSocketMessage :=
  ⟨.complete, ⟨none, none, some path, none, none⟩⟩

/-- A parsed frame whose object has no `type` field. -/
def missingTypeFrame : RawFrame := .parsed ⟨none, noData⟩

/-- A live `useRenderWebSocket` hook state: connected, heartbeat running,
socket OPEN. -/
def sampleHookState : RWHookState :=
  ⟨.connected, none, true, false, some true, some "ws://job"⟩

/-- A `useRender` state that has reached the terminal `complete` state. -/
def completedRenderState : UseRenderState :=
  ⟨.complete, none, ⟨.complete, 3, 3, none, 100, "", 0⟩⟩

/-- A live `useWebSocket` connection with a fresh attempt budget. -/
def liveConn : WsConnState := ⟨.connected, 0, false, 0, true⟩

/-- The message sequence of the spec's worked example (claim C5), as
`ProgressEvent`s for `useRender`. -/
def c5Events : List ProgressEvent :=
  [⟨.job_started, none, none, none, none, "", none, none, none⟩,
   ⟨.progress, some 1, some 3, some 33, none, "", none, none, none⟩,
   ⟨.progress, some 2, some 3, some 10, none, "", none, none, none⟩,
   ⟨.progress, some 3, some 3, some 100, none, "", none, none, none⟩,
   ⟨.job_completed, none, none, none, none, "", none, none, some "/x.mp4"⟩]

/-! Helper lemmas about the `useWebSocket` reconnection loop. -/

lemma runEvents_append (a : Bool) (N : Nat) (s : WsConnState)
    (xs ys : List WsEvent) :
    runEvents a N s (xs ++ ys) = runEvents a N (runEvents a N s xs) ys := by
  simp [runEvents, List.foldl_append]

/-- One failed connection attempt from a closed socket: the status passes
through `connecting` and `error` and lands on `disconnected`; a
reconnection is scheduled exactly when attempts remain. -/
lemma failCycle_run (N : Nat) (s : WsConnState) (hs : s.socketOpen = false) :
    runEvents true N s failCycle =
      if s.reconnectAttempts < N then
        ⟨.disconnected, s.reconnectAttempts + 1, true,
          s.scheduledReconnects + 1, false⟩
      else
        ⟨.disconnected, s.reconnectAttempts, false,
          s.scheduledReconnects, false⟩ := by
  obtain ⟨st, ra, pr, sr, so⟩ := s
  simp only at hs
  subst hs
  by_cases h : ra < N <;> simp [runEvents, failCycle, wsStep, h]

/-- After `k ≤ N` failed attempts from the initial state, the counter and
the ghost schedule count both read `k`, the status is `disconnected`, and
a reconnection is pending unless none has failed yet. -/
lemma runFail_eq (N : Nat) : ∀ k, k ≤ N →
    runEvents true N initialWsConnState (failSequence k) =
      ⟨.disconnected, k, k != 0, k, false⟩ := by
  intro k
  induction k with
  | zero => intro _; rfl
  | succ n ih =>
      intro h
      have hn : n ≤ N := Nat.le_of_succ_le h
      have hlt : n < N := Nat.lt_of_succ_le h
      rw [failSequence, runEvents_append, ih hn, failCycle_run]
      · simp [hlt]
      · rfl

/-! Claim theorems. -/

/-- C1 (counterexample): the claim says a progress message reporting a
lower percentage than the one held is a no-op on `percentage`.  In the
code, folding `progress percent:33` and then `progress percent:10` while
running leaves the held percentage at 10, strictly below the previous 33:
`handleMessage` has no monotonic clamp. -/
theorem progress_regression_cex :
    heldPercentage (handleMessage none (progressMsg 1 3 33)) = some 33 ∧
    (handleMessage none (progressMsg 1 3 33)).map
      (fun r => r.state) = some .running ∧
    heldPercentage
      (handleMessage (handleMessage none (progressMsg 1 3 33))
        (progressMsg 2 3 10)) = some 10 ∧
    (10 : Int) < 33 := by
  decide

/-- C1 (amended): folding a `state` or `progress` message replaces the
whole progress record with the message's contents, so the held percentage
becomes exactly the reported value — regardless of the previously held
percentage, with no monotonic clamp and no clamping to the range 0-100. -/
theorem progress_message_sets_reported_percentage
    (rs : Option RenderProgressState) (m : WebSocketMessage)
    (p : RenderProgress)
    (htag : m.type = .state ∨ m.type = .progress)
    (hp : m.data.progress = some p) :
    heldPercentage (handleMessage rs m) = some p.progress_percent := by
  obtain ⟨t, d⟩ := m
  simp only at htag hp
  rcases htag with h | h <;> subst h <;>
    simp [handleMessage, heldPercentage, hp]

/-- C1 witness: the amended theorem applied at the concrete regressing
message `progress step:2 total:3 percent:10`. -/
theorem progress_message_sets_reported_percentage_witness :
    ((progressMsg 2 3 10).type = .state ∨ (progressMsg 2 3 10).type = .progress) ∧
    (progressMsg 2 3 10).data.progress = some (progressData 2 3 10) ∧
    heldPercentage (handleMessage none (progressMsg 2 3 10)) = some 10 :=
  ⟨Or.inr rfl, rfl,
    progress_message_sets_reported_percentage none _ _ (Or.inr rfl) rfl⟩

/-- C2 (counterexample): the claim says a terminal state is frozen and
outputs are set exactly once.  In the code, after `complete` with output
`/x.mp4`, a later `progress` message flips the state back to `running` and
discards the output path entirely. -/
theorem terminal_overwrite_cex :
    handleMessage none (completeMsg "/x.mp4") =
      some ⟨.complete, none, some "/x.mp4", [], none⟩ ∧
    handleMessage (handleMessage none (completeMsg "/x.mp4"))
        (progressMsg 2 3 50) =
      some ⟨.running, some (progressData 2 3 50), none, [], none⟩ := by
  decide

/-- C2 (amended): once the state is terminal it is preserved only under
`heartbeat`, `pong` and unknown tags; any later `complete` message
(including a duplicate) re-sets `outputPath` wholesale to its own payload,
so outputs are not set exactly once and progress/state messages overwrite
a terminal state. -/
theorem terminal_preserved_only_by_heartbeat_pong_unknown
    (r : RenderProgressState) (m : WebSocketMessage)
    (_hterm : isTerminal r.state = true) :
    ((m.type = .heartbeat ∨ m.type = .pong ∨ m.type = .unknown) →
      handleMessage (some r) m = some r) ∧
    (m.type = .complete →
      (handleMessage (some r) m).map (fun x => x.outputPath) =
        some m.data.output_path) := by
  obtain ⟨t, d⟩ := m
  constructor
  · intro h
    simp only at h
    rcases h with h | h | h <;> subst h <;> rfl
  · intro h
    simp only at h
    subst h
    simp [handleMessage]

/-- C2 witness: the amended theorem applied at a concrete terminal state
and a heartbeat message. -/
theorem terminal_preserved_witness :
    isTerminal (RenderProgressState.state
      ⟨.complete, none, some "/x.mp4", [], none⟩) = true ∧
    handleMessage (some ⟨.complete, none, some "/x.mp4", [], none⟩)
        ⟨.heartbeat, noData⟩ =
      some ⟨.complete, none, some "/x.mp4", [], none⟩ :=
  ⟨rfl,
    (terminal_preserved_only_by_heartbeat_pong_unknown
      ⟨.complete, none, some "/x.mp4", [], none⟩ ⟨.heartbeat, noData⟩
      rfl).1 (Or.inl rfl)⟩

/-- C3 (counterexample): with `maxReconnectAttempts = 2` and every attempt
ending in an abnormal closure, `useWebSocket` performs its 2 reconnections
and then settles with status `disconnected` — not `error` as the claim
states (each failure only passes transiently through `error` before the
close handler overwrites it). -/
theorem reconnect_settles_disconnected_cex :
    (runEvents true 2 initialWsConnState (failSequence 3)).status =
      .disconnected ∧
    (runEvents true 2 initialWsConnState (failSequence 3)).status ≠ .error ∧
    (runEvents true 2 initialWsConnState (failSequence 3)).scheduledReconnects
      = 2 ∧
    (runEvents true 2 initialWsConnState (failSequence 3)).pendingReconnect
      = false := by
  decide

/-- C3 (amended): with `maxReconnectAttempts = N` and abnormal closures on
every attempt, `useWebSocket` schedules exactly N reconnections and then
settles permanently with status `disconnected` (no reconnection pending);
a successful `onopen` resets the attempt counter to 0. -/
theorem reconnect_budget_exact_and_reset (N : Nat) :
    runEvents true N initialWsConnState (failSequence (N + 1)) =
      ⟨.disconnected, N, false, N, false⟩ ∧
    ∀ (s : WsConnState), wsStep true N s .opened =
      { s with status := .connected, reconnectAttempts := 0,
               socketOpen := true } := by
  constructor
  · rw [failSequence, runEvents_append, runFail_eq N N (Nat.le_refl N),
      failCycle_run]
    · simp
    · rfl
  · intro s; rfl

/-- C4 (counterexample): the claim says no reconnection is scheduled once
the progress state is terminal.  In the composite `useRender`/`useWebSocket`
system, with the render state terminal (`complete`) and budget remaining,
a closure — abnormal or even flagged clean — still schedules a
reconnection: the close handler reads neither the render state nor
`wasClean`. -/
theorem terminal_close_still_reconnects_cex :
    isTerminalRender completedRenderState.state = true ∧
    (gallerySystemStep true 5 ⟨completedRenderState, liveConn⟩
      (.closed false)).conn.pendingReconnect = true ∧
    (gallerySystemStep true 5 ⟨completedRenderState, liveConn⟩
      (.closed true)).conn.pendingReconnect = true := by
  decide

/-- C4 (amended): `useRenderWebSocket`'s close handler never schedules a
reconnection on any closure; in `useWebSocket`, a caller-initiated
`disconnect()` prevents reconnection by saturating the attempt counter, so
the subsequent close schedules nothing — but a terminal progress state by
itself does not suppress reconnection. -/
theorem no_reconnect_after_disconnect_or_in_render_hook :
    (∀ (s : RWHookState) (b : Bool), (rwOnClose s b).reconnectTimer = false) ∧
    (∀ (a : Bool) (N : Nat) (s : WsConnState) (b : Bool),
      (wsStep a N (wsDisconnect N s) (.closed b)).pendingReconnect = false) := by
  constructor
  · intro s b
    cases b <;> simp [rwOnClose, rwClearTimers]
  · intro a N s b
    simp [wsStep, wsDisconnect]

/-- C5 (counterexample): in the worked example, after `job_started`,
`progress percent:33` and `progress percent:10`, the displayed percentage
held by `useRender` is 10 — strictly below 33, contradicting the claim
that the out-of-order message must not regress the display. -/
theorem example_sequence_percent_regression_cex :
    ((c5Events.take 3).foldl onEvent initialUseRenderState).progress.progress_percent
      = 10 ∧
    ¬ (33 : Int) ≤
      ((c5Events.take 3).foldl onEvent
        initialUseRenderState).progress.progress_percent := by
  decide

/-- C5 (amended): folding the example sequence through `useRender` ends
with `state = complete`, `current_step = 3` and `progress_percent = 100`,
but the intermediate `percent:10` message does regress the displayed
percentage to 10, and the `job_completed` output path is not recorded
anywhere (the `useRender` state has no outputs field). -/
theorem example_sequence_final_state :
    (c5Events.foldl onEvent initialUseRenderState).state = .complete ∧
    (c5Events.foldl onEvent initialUseRenderState).progress.current_step = 3 ∧
    (c5Events.foldl onEvent initialUseRenderState).progress.progress_percent
      = 100 ∧
    ((c5Events.take 3).foldl onEvent
      initialUseRenderState).progress.progress_percent = 10 := by
  decide

/-- C6 (counterexample): the claim says a frame missing the `type` field
yields a decode error.  In the code it decodes successfully — the switch
routes it to the `default` (unknown) branch — and is dropped without
mutating anything. -/
theorem missing_type_not_decode_error_cex :
    decodeFrame missingTypeFrame = .ok ⟨.unknown, noData⟩ ∧
    rwOnMessage sampleHookState missingTypeFrame = sampleHookState :=
  ⟨rfl, rfl⟩

/-- C6 (amended): malformed JSON yields a decode error; a parsed frame
missing `type` decodes successfully as an unknown-tag message; in both
cases processing the frame mutates nothing — the connection state, the
socket, the timers and the progress state are all unchanged. -/
theorem malformed_and_missing_type_no_mutation
    (s : RWHookState) (f : RawFrame)
    (h : f = .malformed ∨ ∃ d, f = .parsed ⟨none, d⟩) :
    rwOnMessage s f = s ∧
    (f = .malformed → decodeFrame f = .error .invalidJson) := by
  rcases h with h | ⟨d, h⟩ <;> subst h
  · exact ⟨rfl, fun _ => rfl⟩
  · refine ⟨?_, by simp⟩
    simp [rwOnMessage, decodeFrame, handleMessage]

/-- C6 witness: the amended theorem applied to a malformed frame arriving
at a live hook state. -/
theorem malformed_and_missing_type_no_mutation_witness :
    (RawFrame.malformed = RawFrame.malformed ∨
      ∃ d, RawFrame.malformed = RawFrame.parsed ⟨none, d⟩) ∧
    rwOnMessage sampleHookState .malformed = sampleHookState :=
  ⟨Or.inl rfl,
    (malformed_and_missing_type_no_mutation sampleHookState .malformed
      (Or.inl rfl)).1⟩

/-- C7: the message-folding function of `useRenderWebSocket` is a total
Lean function (defined for every state and every message, so deterministic
and never raising), and the `heartbeat`, `pong` and unknown tags are
identity on the progress state. -/
theorem reducer_total_identity_tags
    (rs : Option RenderProgressState) (m : WebSocketMessage)
    (h : m.type = .heartbeat ∨ m.type = .pong ∨ m.type = .unknown) :
    handleMessage rs m = rs := by
  obtain ⟨t, d⟩ := m
  simp only at h
  rcases h with h | h | h <;> subst h <;> rfl

/-- C7 witness: a heartbeat folded into a running state is the identity. -/
theorem reducer_total_identity_tags_witness :
    ((⟨.heartbeat, noData⟩ : WebSocketMessage).type = .heartbeat ∨
      (⟨.heartbeat, noData⟩ : WebSocketMessage).type = .pong ∨
      (⟨.heartbeat, noData⟩ : WebSocketMessage).type = .unknown) ∧
    handleMessage (some ⟨.running, none, none, [], none⟩)
        ⟨.heartbeat, noData⟩ =
      some ⟨.running, none, none, [], none⟩ :=
  ⟨Or.inl rfl,
    reducer_total_identity_tags (some ⟨.running, none, none, [], none⟩)
      ⟨.heartbeat, noData⟩ (Or.inl rfl)⟩

/-- C8: calling cancel twice in succession never raises (both operations
are total) and both calls report success: `cancelRender`'s promise always
resolves (the catch swallows the HTTP failure), a first successful cancel
leaves the job state `cancelled`, a second cancel after it is the identity
on the state and still resolves, and the channel-level `cancel` of
`useRenderWebSocket` never mutates the hook state. -/
theorem cancel_twice_reports_success
    (s : UseRenderState) (j : String) (ok1 ok2 : Bool) (t : RWHookState) :
    (cancelRender ok1 s (some j)).2 = true ∧
    (cancelRender ok2 (cancelRender ok1 s (some j)).1 (some j)).2 = true ∧
    (cancelRender true s (some j)).1.state = .cancelled ∧
    cancelRender ok2 (cancelRender true s (some j)).1 (some j) =
      ((cancelRender true s (some j)).1, true) ∧
    (rwCancel t).1 = t := by
  obtain ⟨st, er, ps, cs, ts, sub, pp, msg, et⟩ := s
  cases ok1 <;> cases ok2 <;> simp [cancelRender, rwCancel]

/-- C9 (counterexample): the claim says every outbound frame is one of the
two JSON objects ping/cancel.  `useWebSocket.cancelJob` sends the plain
string "cancel" on an open socket, which is neither of them. -/
theorem cancel_job_plain_text_cex :
    wsCancelJob true = ["cancel"] ∧
    "cancel" ≠ cancelFrame ∧
    "cancel" ≠ pingFrame := by
  decide

/-- C9 (amended): every frame `useRenderWebSocket` sends is exactly the
JSON ping frame (heartbeat, only while the socket is open) or the JSON
cancel frame (the cancel operation, only while open); `useWebSocket`'s
cancel operation instead sends only the plain-text frame "cancel". -/
theorem outbound_frames_characterized :
    (∀ (s : RWHookState) (f : String),
      f ∈ rwHeartbeatTick s ∨ f ∈ (rwCancel s).2 →
        f = pingFrame ∨ f = cancelFrame) ∧
    (∀ (b : Bool) (g : String), g ∈ wsCancelJob b → g = "cancel") := by
  constructor
  · intro s f h
    rcases h with h | h
    · left
      by_cases hc : s.socket = some true
      · simpa [rwHeartbeatTick, hc] using h
      · simp [rwHeartbeatTick, hc] at h
    · right
      by_cases hc : s.socket = some true
      · simpa [rwCancel, hc] using h
      · simp [rwCancel, hc] at h
  · intro b g h
    cases b
    · simp [wsCancelJob, wsSend] at h
    · simpa [wsCancelJob, wsSend] using h

/-- C9 witness: the amended characterization applied to a heartbeat frame
emitted from a live hook state. -/
theorem outbound_frames_characterized_witness :
    (pingFrame ∈ rwHeartbeatTick sampleHookState ∨
      pingFrame ∈ (rwCancel sampleHookState).2) ∧
    (pingFrame = pingFrame ∨ pingFrame = cancelFrame) :=
  ⟨Or.inl (by decide),
    outbound_frames_characterized.1 sampleHookState pingFrame
      (Or.inl (by decide))⟩

/-- C10: every `connect(wsUrl)` call of `useRenderWebSocket` — from any
prior hook state, including a reconnect to the same URL — yields a state
with `connectionState = connecting`, `renderState = null`, both timers
cleared and a fresh not-yet-open socket, and it closed the previous
transport exactly when one existed; all previously accumulated progress is
discarded. -/
theorem connect_resets_hook_state (s : RWHookState) (url : String) :
    rwCreateConnection s url =
      (⟨.connecting, none, false, false, some false, some url⟩,
        s.socket.isSome) := by
  cases s
  rfl

end StarStitch
